import Mathlib

/-!
Shallow embedding of the Workbench SDK resource layer
(src/workbench/resources/service_requests.py, src/workbench/resources/webhooks.py,
src/workbench/types.py).

Python runtime values appearing in query-parameter mappings and JSON bodies are
modelled by `PyVal`; a Python dict is an ordered association list `PyDict`.
Each resource method is split into a pure request builder (`...Request`), which
contains all the parameter-assembly logic of the source method, and a runner
that hands the built request to the shared transport exactly as the source
method does with its single `self._client.<verb>(...)` call.  The transport
(`workbench/client.py`) is an external collaborator and is modelled as an
arbitrary function from requests to results.
-/

/-- A Python runtime value as it appears in a params/json dict.  The only
list-valued arguments in these two resources are webhook event-name lists, so
`vlist` carries a list of strings. -/
inductive PyVal where
  | vnone : PyVal
  | vstr : String → PyVal
  | vint : Int → PyVal
  | vbool : Bool → PyVal
  | vlist : List String → PyVal
deriving DecidableEq

/-- A Python dict (ordered association list, as Python dicts preserve insertion order). -/
abbrev PyDict := List (String × PyVal)

/-- `None`-or-value coercion: a Python `Optional[...]` argument placed into a dict. -/
def PyVal.ofOpt {α : Type} (f : α → PyVal) : Option α → PyVal
  | Option.some a => f a
  | Option.none => PyVal.vnone

def PyVal.ofStr (o : Option String) : PyVal := PyVal.ofOpt PyVal.vstr o

def PyVal.ofInt (o : Option Int) : PyVal := PyVal.ofOpt PyVal.vint o

def PyVal.ofBool (o : Option Bool) : PyVal := PyVal.ofOpt PyVal.vbool o

/-- HTTP verb used by the shared transport helpers (`client.get/post/put/delete`). -/
inductive Method where
  | GET : Method
  | POST : Method
  | PUT : Method
  | DELETE : Method
deriving DecidableEq

/-- The request a resource method hands to the shared transport: the verb, the
URL path, the query-parameter mapping (the `params=` argument, absent when the
source passes none) and the JSON body (the `json=` argument, absent when the
source passes none). -/
structure Request where
  method : Method
  path : String
  params : Option PyDict := Option.none
  body : Option PyDict := Option.none
deriving DecidableEq

/-- Keys of the query-parameter mapping handed to the transport. -/
def Request.paramKeys (r : Request) : List String := (r.params.getD []).map Prod.fst

/-- Keys of the JSON body handed to the transport. -/
def Request.bodyKeys (r : Request) : List String := (r.body.getD []).map Prod.fst

/-- `workbench.types.ServiceRequestStatus` (a closed `Literal` of strings). -/
inductive ServiceRequestStatus where
  | new | reviewing | scheduled | completed | cancelled | declined
deriving DecidableEq

def ServiceRequestStatus.str : ServiceRequestStatus → String
  | .new => "new"
  | .reviewing => "reviewing"
  | .scheduled => "scheduled"
  | .completed => "completed"
  | .cancelled => "cancelled"
  | .declined => "declined"

/-- `workbench.types.ServiceRequestPriority`. -/
inductive ServiceRequestPriority where
  | low | medium | high | urgent
deriving DecidableEq

def ServiceRequestPriority.str : ServiceRequestPriority → String
  | .low => "low"
  | .medium => "medium"
  | .high => "high"
  | .urgent => "urgent"

/-- `workbench.types.WebhookEvent` (the fixed event catalogue). -/
inductive WebhookEvent where
  | client_created | client_updated | client_deleted
  | invoice_created | invoice_sent | invoice_paid | invoice_overdue
  | quote_created | quote_sent | quote_accepted | quote_rejected
  | job_created | job_status_changed | job_completed
  | service_request_created | service_request_assigned
deriving DecidableEq

def WebhookEvent.str : WebhookEvent → String
  | .client_created => "client.created"
  | .client_updated => "client.updated"
  | .client_deleted => "client.deleted"
  | .invoice_created => "invoice.created"
  | .invoice_sent => "invoice.sent"
  | .invoice_paid => "invoice.paid"
  | .invoice_overdue => "invoice.overdue"
  | .quote_created => "quote.created"
  | .quote_sent => "quote.sent"
  | .quote_accepted => "quote.accepted"
  | .quote_rejected => "quote.rejected"
  | .job_created => "job.created"
  | .job_status_changed => "job.status_changed"
  | .job_completed => "job.completed"
  | .service_request_created => "service_request.created"
  | .service_request_assigned => "service_request.assigned"

namespace ServiceRequestsResource

/-- Request assembled by `ServiceRequestsResource.list`: the params dict is
built with every declared key, unset arguments included as `None` (the source
performs no filtering on this dict). -/
def listRequest (page : Option Int) (per_page : Option Int) (search : Option String)
    (sort : Option String) (order : Option String) (status : Option ServiceRequestStatus)
    (priority : Option ServiceRequestPriority) (client_id : Option String) : Request :=
  { method := Method.GET
    path := "/v1/service-requests"
    params := Option.some
      [("page", PyVal.ofInt page),
       ("per_page", PyVal.ofInt per_page),
       ("search", PyVal.ofStr search),
       ("sort", PyVal.ofStr sort),
       ("order", PyVal.ofStr order),
       ("status", PyVal.ofOpt (fun s => PyVal.vstr s.str) status),
       ("priority", PyVal.ofOpt (fun p => PyVal.vstr p.str) priority),
       ("client_id", PyVal.ofStr client_id)] }

/-- Request assembled by `ServiceRequestsResource.get`. -/
def getRequest (id : String) : Request :=
  { method := Method.GET, path := "/v1/service-requests/" ++ id }

/-- Request assembled by `ServiceRequestsResource.create`: the data dict is
built with every key, then filtered by `v is not None or k == "title"`. -/
def createRequest (title : String) (client_id : Option String) (description : Option String)
    (status : Option ServiceRequestStatus) (source : Option String)
    (priority : Option ServiceRequestPriority) (requested_date : Option String)
    (preferred_time : Option String) (address : Option String) (contact_name : Option String)
    (contact_email : Option String) (contact_phone : Option String)
    (notes : Option String) : Request :=
  let data : PyDict :=
    [("title", PyVal.vstr title),
     ("client_id", PyVal.ofStr client_id),
     ("description", PyVal.ofStr description),
     ("status", PyVal.ofOpt (fun s => PyVal.vstr s.str) status),
     ("source", PyVal.ofStr source),
     ("priority", PyVal.ofOpt (fun p => PyVal.vstr p.str) priority),
     ("requested_date", PyVal.ofStr requested_date),
     ("preferred_time", PyVal.ofStr preferred_time),
     ("address", PyVal.ofStr address),
     ("contact_name", PyVal.ofStr contact_name),
     ("contact_email", PyVal.ofStr contact_email),
     ("contact_phone", PyVal.ofStr contact_phone),
     ("notes", PyVal.ofStr notes)]
  { method := Method.POST
    path := "/v1/service-requests"
    body := Option.some (data.filter (fun kv => kv.2 != PyVal.vnone || kv.1 == "title")) }

/-- Request assembled by `ServiceRequestsResource.update`: arbitrary kwargs,
filtered by `v is not None`. -/
def updateRequest (id : String) (kwargs : PyDict) : Request :=
  { method := Method.PUT
    path := "/v1/service-requests/" ++ id
    body := Option.some (kwargs.filter (fun kv => kv.2 != PyVal.vnone)) }

/-- Request assembled by `ServiceRequestsResource.delete`. -/
def deleteRequest (id : String) : Request :=
  { method := Method.DELETE, path := "/v1/service-requests/" ++ id }

end ServiceRequestsResource

namespace WebhooksResource

/-- Request assembled by `WebhooksResource.list`: the params dict carries only
`page` and `per_page` (the method accepts no other parameters); unset arguments
are included as `None` (the source performs no filtering on this dict). -/
def listRequest (page : Option Int) (per_page : Option Int) : Request :=
  { method := Method.GET
    path := "/v1/webhooks"
    params := Option.some
      [("page", PyVal.ofInt page),
       ("per_page", PyVal.ofInt per_page)] }

/-- Request assembled by `WebhooksResource.get`. -/
def getRequest (id : String) : Request :=
  { method := Method.GET, path := "/v1/webhooks/" ++ id }

/-- Request assembled by `WebhooksResource.create`: all three arguments are
required and the data dict is sent without any filtering. -/
def createRequest (name : String) (url : String) (events : List WebhookEvent) : Request :=
  { method := Method.POST
    path := "/v1/webhooks"
    body := Option.some
      [("name", PyVal.vstr name),
       ("url", PyVal.vstr url),
       ("events", PyVal.vlist (events.map WebhookEvent.str))] }

/-- Request assembled by `WebhooksResource.update`: the data dict is built with
all four declared keys, then filtered by `v is not None`. -/
def updateRequest (id : String) (name : Option String) (url : Option String)
    (events : Option (List WebhookEvent)) (is_active : Option Bool) : Request :=
  let data : PyDict :=
    [("name", PyVal.ofStr name),
     ("url", PyVal.ofStr url),
     ("events", PyVal.ofOpt (fun es => PyVal.vlist (es.map WebhookEvent.str)) events),
     ("is_active", PyVal.ofBool is_active)]
  { method := Method.PUT
    path := "/v1/webhooks/" ++ id
    body := Option.some (data.filter (fun kv => kv.2 != PyVal.vnone)) }

/-- Request assembled by `WebhooksResource.delete`. -/
def deleteRequest (id : String) : Request :=
  { method := Method.DELETE, path := "/v1/webhooks/" ++ id }

/-- Request assembled by `WebhooksResource.list_deliveries`: params dict with
`page`, `per_page`, `event_type` only, unfiltered. -/
def listDeliveriesRequest (webhook_id : String) (page : Option Int) (per_page : Option Int)
    (event_type : Option WebhookEvent) : Request :=
  { method := Method.GET
    path := "/v1/webhooks/" ++ webhook_id ++ "/deliveries"
    params := Option.some
      [("page", PyVal.ofInt page),
       ("per_page", PyVal.ofInt per_page),
       ("event_type", PyVal.ofOpt (fun e => PyVal.vstr e.str) event_type)] }

/-- Request assembled by `WebhooksResource.test`. -/
def testRequest (id : String) : Request :=
  { method := Method.POST, path := "/v1/webhooks/" ++ id ++ "/test" }

end WebhooksResource

/-!
Runners.  Every Python method body ends in a single `return self._client.<verb>(...)`
call; the runner below is that call: it hands the assembled request to the shared
transport `t` exactly once and returns the transport's result unchanged.  The
result type is an arbitrary `ρ` so the same definition covers a successful
decode (`ρ` an envelope type), a failing transport (`ρ = Except ε σ`), and an
instrumented transport that records the requests it receives.
-/

namespace ServiceRequestsResource

def list {ρ : Type} (t : Request → ρ) (page : Option Int) (per_page : Option Int)
    (search : Option String) (sort : Option String) (order : Option String)
    (status : Option ServiceRequestStatus) (priority : Option ServiceRequestPriority)
    (client_id : Option String) : ρ :=
  t (listRequest page per_page search sort order status priority client_id)

def get {ρ : Type} (t : Request → ρ) (id : String) : ρ := t (getRequest id)

def create {ρ : Type} (t : Request → ρ) (title : String) (client_id : Option String)
    (description : Option String) (status : Option ServiceRequestStatus)
    (source : Option String) (priority : Option ServiceRequestPriority)
    (requested_date : Option String) (preferred_time : Option String)
    (address : Option String) (contact_name : Option String) (contact_email : Option String)
    (contact_phone : Option String) (notes : Option String) : ρ :=
  t (createRequest title client_id description status source priority requested_date
      preferred_time address contact_name contact_email contact_phone notes)

def update {ρ : Type} (t : Request → ρ) (id : String) (kwargs : PyDict) : ρ :=
  t (updateRequest id kwargs)

def delete {ρ : Type} (t : Request → ρ) (id : String) : ρ := t (deleteRequest id)

end ServiceRequestsResource

namespace WebhooksResource

def list {ρ : Type} (t : Request → ρ) (page : Option Int) (per_page : Option Int) : ρ :=
  t (listRequest page per_page)

def get {ρ : Type} (t : Request → ρ) (id : String) : ρ := t (getRequest id)

def create {ρ : Type} (t : Request → ρ) (name : String) (url : String)
    (events : List WebhookEvent) : ρ :=
  t (createRequest name url events)

def update {ρ : Type} (t : Request → ρ) (id : String) (name : Option String)
    (url : Option String) (events : Option (List WebhookEvent))
    (is_active : Option Bool) : ρ :=
  t (updateRequest id name url events is_active)

def delete {ρ : Type} (t : Request → ρ) (id : String) : ρ := t (deleteRequest id)

def list_deliveries {ρ : Type} (t : Request → ρ) (webhook_id : String) (page : Option Int)
    (per_page : Option Int) (event_type : Option WebhookEvent) : ρ :=
  t (listDeliveriesRequest webhook_id page per_page event_type)

def test {ρ : Type} (t : Request → ρ) (id : String) : ρ := t (testRequest id)

end WebhooksResource

/-- Instrumented transport: decodes with `f` and records every request it is
handed, so a method's trace shows exactly how many transport calls it makes. -/
def traced {ρ : Type} (f : Request → ρ) : Request → ρ × List Request :=
  fun r => (f r, [r])

/-!
Envelope and entity schemas from `workbench/types.py`, for the resources in scope.
`NotRequired` keys are modelled as `Option` (the key may be absent).
-/

/-- `workbench.types.ResponseMeta`. -/
structure ResponseMeta where
  request_id : String
  timestamp : String
deriving DecidableEq

/-- `workbench.types.Pagination`. -/
structure Pagination where
  page : Int
  per_page : Int
  total : Int
  total_pages : Int
  has_more : Bool
deriving DecidableEq

/-- `workbench.types.ApiResponse[T]`. -/
structure ApiResponse (T : Type) where
  data : T
  meta : ResponseMeta
deriving DecidableEq

/-- `workbench.types.ListResponse[T]`. -/
structure ListResponse (T : Type) where
  data : List T
  meta : ResponseMeta
  pagination : Pagination
deriving DecidableEq

/-- `workbench.types.ClientStatus`. -/
inductive ClientStatus where
  | active | inactive | lead | prospect
deriving DecidableEq

/-- `workbench.types.Client`. -/
structure Client where
  id : String
  business_id : String
  first_name : String
  last_name : Option String
  company : Option String
  email : Option String
  phone : Option String
  status : ClientStatus
  source : Option String
  notes : Option String
  tags : Option (List String)
  next_contact_date : Option String
  ask_for_review : Option Bool
  created_at : String
  updated_at : String
deriving DecidableEq

/-- `workbench.types.ServiceRequest`. -/
structure ServiceRequest where
  id : String
  business_id : String
  client_id : Option String
  title : String
  description : Option String
  status : ServiceRequestStatus
  source : Option String
  priority : Option ServiceRequestPriority
  requested_date : Option String
  preferred_time : Option String
  address : Option String
  contact_name : Option String
  contact_email : Option String
  contact_phone : Option String
  notes : Option String
  client : Option Client
  created_at : String
  updated_at : String
deriving DecidableEq

/-- `workbench.types.Webhook`.  Note that `secret` is a required key of this
one schema, and this schema is the `data` type of the responses of `create`,
`get`, `update` and `list` alike. -/
structure Webhook where
  id : String
  business_id : String
  name : String
  url : String
  events : List WebhookEvent
  secret : String
  is_active : Bool
  created_at : String
  updated_at : String
deriving DecidableEq

/-- `workbench.types.WebhookDelivery`. -/
structure WebhookDelivery where
  id : String
  webhook_id : String
  event_type : WebhookEvent
  payload : PyDict
  response_status : Option Int
  response_body : Option String
  attempt_count : Int
  next_retry_at : Option String
  delivered_at : Option String
  failed_at : Option String
  created_at : String
deriving DecidableEq

/-- The declared keys of the `Webhook` TypedDict, in source order. -/
def Webhook.keys : List String :=
  ["id", "business_id", "name", "url", "events", "secret", "is_active",
   "created_at", "updated_at"]

/-- The declared keys of the `WebhookDelivery` TypedDict, in source order. -/
def WebhookDelivery.keys : List String :=
  ["id", "webhook_id", "event_type", "payload", "response_status", "response_body",
   "attempt_count", "next_retry_at", "delivered_at", "failed_at", "created_at"]

namespace WebhooksResource

/-- Keys of the `data` payload in the declared response shape of `create`
(`ApiResponse[Webhook]`). -/
def createResponseDataKeys : List String := Webhook.keys

/-- Keys of the `data` payload in the declared response shape of `get`
(`ApiResponse[Webhook]`). -/
def getResponseDataKeys : List String := Webhook.keys

/-- Keys of the `data` payload in the declared response shape of `update`
(`ApiResponse[Webhook]`). -/
def updateResponseDataKeys : List String := Webhook.keys

/-- Keys of each `data` item in the declared response shape of `list`
(`ListResponse[Webhook]`). -/
def listResponseItemKeys : List String := Webhook.keys

/-- Keys of each `data` item in the declared response shape of `list_deliveries`
(`ListResponse[WebhookDelivery]`). -/
def listDeliveriesResponseItemKeys : List String := WebhookDelivery.keys

end WebhooksResource

namespace ServiceRequestsResource

/-- Python keyword binding for `ServiceRequestsResource.update(self, id: str,
**kwargs)` on an all-keyword call: the keyword named `id` binds the path
parameter (modelled at its annotated type `str`) and is excluded from
`kwargs`; with no `id` keyword the call raises TypeError before any request is
made, modelled as `Option.none`.  Keyword mappings are duplicate-free in
Python, so removing the `id` key leaves exactly the other keywords. -/
def updateKeywordCall (kws : PyDict) : Option Request :=
  match kws.lookup "id" with
  | Option.some (PyVal.vstr idv) =>
      Option.some (updateRequest idv (kws.filter (fun kv => kv.1 != "id")))
  | _ => Option.none

end ServiceRequestsResource

/-! Helper lemmas about keys of filtered dicts. -/

theorem mem_map_fst_filter_iff {k : String} {l : PyDict} {p : String × PyVal → Bool} :
    k ∈ (l.filter p).map Prod.fst ↔ ∃ v, (k, v) ∈ l ∧ p (k, v) = true := by
  constructor
  · intro h
    rcases List.mem_map.mp h with ⟨kv, hm, hfst⟩
    rcases List.mem_filter.mp hm with ⟨hl, hp⟩
    rcases kv with ⟨a, b⟩
    subst hfst
    exact ⟨b, hl, hp⟩
  · rintro ⟨v, hl, hp⟩
    exact List.mem_map.mpr ⟨(k, v), List.mem_filter.mpr ⟨hl, hp⟩, rfl⟩

theorem not_mem_map_fst_filter {k : String} {l : PyDict} {p : String × PyVal → Bool}
    (h : ∀ v, (k, v) ∈ l → p (k, v) = false) : k ∉ (l.filter p).map Prod.fst := by
  intro hk
  rcases mem_map_fst_filter_iff.mp hk with ⟨v, hm, hp⟩
  rw [h v hm] at hp
  exact Bool.false_ne_true hp

/-- Claim C1: for every create call, the required fields (`title` for service
requests; `name`, `url`, `events` for webhooks) are present in the transmitted
JSON body for every argument value, including the empty string, and every
optional field the caller left unset is absent from the body. -/
theorem claim_C1_create_required_present_unset_absent :
    (∀ (title : String) (client_id description : Option String)
        (status : Option ServiceRequestStatus) (source : Option String)
        (priority : Option ServiceRequestPriority)
        (requested_date preferred_time address contact_name contact_email contact_phone
          notes : Option String),
      ("title", PyVal.vstr title) ∈
        ((ServiceRequestsResource.createRequest title client_id description status source
            priority requested_date preferred_time address contact_name contact_email
            contact_phone notes).body.getD [])) ∧
    (∀ (title : String) (description : Option String)
        (status : Option ServiceRequestStatus) (source : Option String)
        (priority : Option ServiceRequestPriority)
        (requested_date preferred_time address contact_name contact_email contact_phone
          notes : Option String),
      "client_id" ∉ (ServiceRequestsResource.createRequest title Option.none description
          status source priority requested_date preferred_time address contact_name
          contact_email contact_phone notes).bodyKeys) ∧
    (∀ (title : String) (client_id : Option String)
        (status : Option ServiceRequestStatus) (source : Option String)
        (priority : Option ServiceRequestPriority)
        (requested_date preferred_time address contact_name contact_email contact_phone
          notes : Option String),
      "description" ∉ (ServiceRequestsResource.createRequest title client_id Option.none
          status source priority requested_date preferred_time address contact_name
          contact_email contact_phone notes).bodyKeys) ∧
    (∀ (title : String) (client_id description : Option String) (source : Option String)
        (priority : Option ServiceRequestPriority)
        (requested_date preferred_time address contact_name contact_email contact_phone
          notes : Option String),
      "status" ∉ (ServiceRequestsResource.createRequest title client_id description
          Option.none source priority requested_date preferred_time address contact_name
          contact_email contact_phone notes).bodyKeys) ∧
    (∀ (title : String) (client_id description : Option String)
        (status : Option ServiceRequestStatus)
        (priority : Option ServiceRequestPriority)
        (requested_date preferred_time address contact_name contact_email contact_phone
          notes : Option String),
      "source" ∉ (ServiceRequestsResource.createRequest title client_id description
          status Option.none priority requested_date preferred_time address contact_name
          contact_email contact_phone notes).bodyKeys) ∧
    (∀ (title : String) (client_id description : Option String)
        (status : Option ServiceRequestStatus) (source : Option String)
        (requested_date preferred_time address contact_name contact_email contact_phone
          notes : Option String),
      "priority" ∉ (ServiceRequestsResource.createRequest title client_id description
          status source Option.none requested_date preferred_time address contact_name
          contact_email contact_phone notes).bodyKeys) ∧
    (∀ (title : String) (client_id description : Option String)
        (status : Option ServiceRequestStatus) (source : Option String)
        (priority : Option ServiceRequestPriority)
        (preferred_time address contact_name contact_email contact_phone
          notes : Option String),
      "requested_date" ∉ (ServiceRequestsResource.createRequest title client_id description
          status source priority Option.none preferred_time address contact_name
          contact_email contact_phone notes).bodyKeys) ∧
    (∀ (title : String) (client_id description : Option String)
        (status : Option ServiceRequestStatus) (source : Option String)
        (priority : Option ServiceRequestPriority)
        (requested_date address contact_name contact_email contact_phone
          notes : Option String),
      "preferred_time" ∉ (ServiceRequestsResource.createRequest title client_id description
          status source priority requested_date Option.none address contact_name
          contact_email contact_phone notes).bodyKeys) ∧
    (∀ (title : String) (client_id description : Option String)
        (status : Option ServiceRequestStatus) (source : Option String)
        (priority : Option ServiceRequestPriority)
        (requested_date preferred_time contact_name contact_email contact_phone
          notes : Option String),
      "address" ∉ (ServiceRequestsResource.createRequest title client_id description
          status source priority requested_date preferred_time Option.none contact_name
          contact_email contact_phone notes).bodyKeys) ∧
    (∀ (title : String) (client_id description : Option String)
        (status : Option ServiceRequestStatus) (source : Option String)
        (priority : Option ServiceRequestPriority)
        (requested_date preferred_time address contact_email contact_phone
          notes : Option String),
      "contact_name" ∉ (ServiceRequestsResource.createRequest title client_id description
          status source priority requested_date preferred_time address Option.none
          contact_email contact_phone notes).bodyKeys) ∧
    (∀ (title : String) (client_id description : Option String)
        (status : Option ServiceRequestStatus) (source : Option String)
        (priority : Option ServiceRequestPriority)
        (requested_date preferred_time address contact_name contact_phone
          notes : Option String),
      "contact_email" ∉ (ServiceRequestsResource.createRequest title client_id description
          status source priority requested_date preferred_time address contact_name
          Option.none contact_phone notes).bodyKeys) ∧
    (∀ (title : String) (client_id description : Option String)
        (status : Option ServiceRequestStatus) (source : Option String)
        (priority : Option ServiceRequestPriority)
        (requested_date preferred_time address contact_name contact_email
          notes : Option String),
      "contact_phone" ∉ (ServiceRequestsResource.createRequest title client_id description
          status source priority requested_date preferred_time address contact_name
          contact_email Option.none notes).bodyKeys) ∧
    (∀ (title : String) (client_id description : Option String)
        (status : Option ServiceRequestStatus) (source : Option String)
        (priority : Option ServiceRequestPriority)
        (requested_date preferred_time address contact_name contact_email
          contact_phone : Option String),
      "notes" ∉ (ServiceRequestsResource.createRequest title client_id description
          status source priority requested_date preferred_time address contact_name
          contact_email contact_phone Option.none).bodyKeys) ∧
    (∀ (name url : String) (events : List WebhookEvent),
      (WebhooksResource.createRequest name url events).body =
        Option.some
          [("name", PyVal.vstr name),
           ("url", PyVal.vstr url),
           ("events", PyVal.vlist (events.map WebhookEvent.str))]) := by
  refine ⟨?_, ?_, ?_, ?_, ?_, ?_, ?_, ?_, ?_, ?_, ?_, ?_, ?_, ?_⟩
  · intro title client_id description status source priority requested_date preferred_time
      address contact_name contact_email contact_phone notes
    simp only [ServiceRequestsResource.createRequest, Option.getD_some]
    refine List.mem_filter.mpr ⟨?_, ?_⟩
    · simp
    · simp
  all_goals
    intros
    first
      | rfl
      | (simp only [Request.bodyKeys, ServiceRequestsResource.createRequest,
           Option.getD_some]
         refine not_mem_map_fst_filter ?_
         intro v hv
         simp [PyVal.ofStr, PyVal.ofOpt] at hv
         subst hv
         decide)

/-- Claim C2: for every update call, only the fields the caller explicitly set
to a non-None value appear in the transmitted body; passing a field as None is
equivalent to not passing it at all, so `update(id="sr_1", status="scheduled")`
transmits a body that is exactly `{"status": "scheduled"}` with no other keys. -/
theorem claim_C2_update_only_set_fields :
    (∀ (id : String) (kwargs : PyDict),
      ((ServiceRequestsResource.updateRequest id kwargs).body.getD []).Sublist kwargs) ∧
    (∀ (id : String) (kwargs : PyDict),
      ((ServiceRequestsResource.updateRequest id kwargs).body.getD []).all
        (fun kv => kv.2 != PyVal.vnone) = true) ∧
    (∀ (id k : String) (l₁ l₂ : PyDict),
      ServiceRequestsResource.updateRequest id (l₁ ++ (k, PyVal.vnone) :: l₂) =
        ServiceRequestsResource.updateRequest id (l₁ ++ l₂)) ∧
    ((ServiceRequestsResource.updateRequest "sr_1" [("status", PyVal.vstr "scheduled")]).body
      = Option.some [("status", PyVal.vstr "scheduled")]) ∧
    (∀ (id : String) (name url : Option String) (events : Option (List WebhookEvent))
        (is_active : Option Bool),
      ((WebhooksResource.updateRequest id name url events is_active).body.getD []).all
        (fun kv => kv.2 != PyVal.vnone) = true) ∧
    (∀ (id n : String) (url : Option String) (events : Option (List WebhookEvent))
        (is_active : Option Bool),
      ("name", PyVal.vstr n) ∈
        ((WebhooksResource.updateRequest id (Option.some n) url events
            is_active).body.getD [])) ∧
    (∀ (id : String) (url : Option String) (events : Option (List WebhookEvent))
        (is_active : Option Bool),
      "name" ∉ (WebhooksResource.updateRequest id Option.none url events
          is_active).bodyKeys) ∧
    (∀ (id u : String) (name : Option String) (events : Option (List WebhookEvent))
        (is_active : Option Bool),
      ("url", PyVal.vstr u) ∈
        ((WebhooksResource.updateRequest id name (Option.some u) events
            is_active).body.getD [])) ∧
    (∀ (id : String) (name : Option String) (events : Option (List WebhookEvent))
        (is_active : Option Bool),
      "url" ∉ (WebhooksResource.updateRequest id name Option.none events
          is_active).bodyKeys) ∧
    (∀ (id : String) (name url : Option String) (es : List WebhookEvent)
        (is_active : Option Bool),
      ("events", PyVal.vlist (es.map WebhookEvent.str)) ∈
        ((WebhooksResource.updateRequest id name url (Option.some es)
            is_active).body.getD [])) ∧
    (∀ (id : String) (name url : Option String) (is_active : Option Bool),
      "events" ∉ (WebhooksResource.updateRequest id name url Option.none
          is_active).bodyKeys) ∧
    (∀ (id : String) (name url : Option String) (events : Option (List WebhookEvent))
        (b : Bool),
      ("is_active", PyVal.vbool b) ∈
        ((WebhooksResource.updateRequest id name url events
            (Option.some b)).body.getD [])) ∧
    (∀ (id : String) (name url : Option String) (events : Option (List WebhookEvent)),
      "is_active" ∉ (WebhooksResource.updateRequest id name url events
          Option.none).bodyKeys) := by
  refine ⟨?_, ?_, ?_, ?_, ?_, ?_, ?_, ?_, ?_, ?_, ?_, ?_, ?_⟩
  · intro id kwargs
    simp only [ServiceRequestsResource.updateRequest, Option.getD_some]
    exact List.filter_sublist kwargs
  · intro id kwargs
    simp only [ServiceRequestsResource.updateRequest, Option.getD_some, List.all_eq_true]
    intro kv hkv
    exact (List.mem_filter.mp hkv).2
  · intro id k l₁ l₂
    simp [ServiceRequestsResource.updateRequest, List.filter_append]
  · rfl
  · intro id name url events is_active
    simp only [WebhooksResource.updateRequest, Option.getD_some, List.all_eq_true]
    intro kv hkv
    exact (List.mem_filter.mp hkv).2
  all_goals
    intros
    first
      | (simp only [WebhooksResource.updateRequest, Option.getD_some]
         refine List.mem_filter.mpr ⟨?_, ?_⟩
         · simp [PyVal.ofStr, PyVal.ofBool, PyVal.ofOpt]
         · simp [PyVal.ofStr, PyVal.ofBool, PyVal.ofOpt])
      | (simp only [Request.bodyKeys, WebhooksResource.updateRequest, Option.getD_some]
         refine not_mem_map_fst_filter ?_
         intro v hv
         simp [PyVal.ofStr, PyVal.ofBool, PyVal.ofOpt] at hv
         subst hv
         decide)

/-- Claim C3 counterexample: calling `ServiceRequestsResource.list` with every
parameter unset hands the transport a parameter mapping in which the key
`page` is present with a null value, contradicting the claim that unset keys
never reach the transport mapping. -/
theorem claim_C3_counterexample_null_param_passed :
    ("page", PyVal.vnone) ∈
      ((ServiceRequestsResource.listRequest Option.none Option.none Option.none Option.none
          Option.none Option.none Option.none Option.none).params.getD []) := by decide

/-- Claim C3 (amended): for list and list_deliveries the resource method does
not omit unset parameters; the parameter mapping handed to the transport always
contains every declared parameter key, and a call with every parameter unset
carries each key with a null value.  Dropping null-valued parameters from the
outgoing request is left to the shared transport. -/
theorem claim_C3_amended_unset_params_passed_as_null :
    (∀ (page per_page : Option Int) (search sort order : Option String)
        (status : Option ServiceRequestStatus) (priority : Option ServiceRequestPriority)
        (client_id : Option String),
      (ServiceRequestsResource.listRequest page per_page search sort order status priority
          client_id).paramKeys =
        ["page", "per_page", "search", "sort", "order", "status", "priority",
         "client_id"]) ∧
    ((ServiceRequestsResource.listRequest Option.none Option.none Option.none Option.none
        Option.none Option.none Option.none Option.none).params =
      Option.some
        [("page", PyVal.vnone), ("per_page", PyVal.vnone), ("search", PyVal.vnone),
         ("sort", PyVal.vnone), ("order", PyVal.vnone), ("status", PyVal.vnone),
         ("priority", PyVal.vnone), ("client_id", PyVal.vnone)]) ∧
    (∀ (page per_page : Option Int),
      (WebhooksResource.listRequest page per_page).paramKeys = ["page", "per_page"]) ∧
    ((WebhooksResource.listRequest Option.none Option.none).params =
      Option.some [("page", PyVal.vnone), ("per_page", PyVal.vnone)]) ∧
    (∀ (webhook_id : String) (page per_page : Option Int)
        (event_type : Option WebhookEvent),
      (WebhooksResource.listDeliveriesRequest webhook_id page per_page
          event_type).paramKeys = ["page", "per_page", "event_type"]) ∧
    (∀ (webhook_id : String),
      (WebhooksResource.listDeliveriesRequest webhook_id Option.none Option.none
          Option.none).params =
        Option.some
          [("page", PyVal.vnone), ("per_page", PyVal.vnone),
           ("event_type", PyVal.vnone)]) := by
  refine ⟨?_, ?_, ?_, ?_, ?_, ?_⟩
  all_goals intros
  all_goals rfl

/-- Claim C4 counterexample: `WebhooksResource.list` does not accept a `search`
parameter — its parameter mapping has no `search` key (its signature carries
only `page` and `per_page`), contradicting the claim that every list operation
accepts page, per_page, search, sort and order. -/
theorem claim_C4_counterexample_webhooks_list_has_no_search :
    "search" ∉ (WebhooksResource.listRequest Option.none Option.none).paramKeys := by
  decide

/-- Claim C4 (amended): each list parameter is independently optional, but the
accepted sets differ per operation: `ServiceRequestsResource.list` accepts
page, per_page, search, sort, order, status, priority and client_id;
`WebhooksResource.list` accepts only page and per_page; and
`WebhooksResource.list_deliveries` accepts only page, per_page and event_type. -/
theorem claim_C4_amended_list_parameter_sets :
    (∀ (page per_page : Option Int) (search sort order : Option String)
        (status : Option ServiceRequestStatus) (priority : Option ServiceRequestPriority)
        (client_id : Option String),
      (ServiceRequestsResource.listRequest page per_page search sort order status priority
          client_id).paramKeys =
        ["page", "per_page", "search", "sort", "order", "status", "priority",
         "client_id"]) ∧
    (∀ (page per_page : Option Int),
      (WebhooksResource.listRequest page per_page).paramKeys = ["page", "per_page"]) ∧
    (∀ (webhook_id : String) (page per_page : Option Int)
        (event_type : Option WebhookEvent),
      (WebhooksResource.listDeliveriesRequest webhook_id page per_page
          event_type).paramKeys = ["page", "per_page", "event_type"]) := by
  refine ⟨?_, ?_, ?_⟩
  all_goals intros
  all_goals rfl

/-- Claim C5: every resource method performs exactly one call to the shared
transport per invocation — under an instrumented transport its trace is the
singleton list of the one assembled request — and its outcome is exactly the
transport's outcome on that request, so a failing transport result is
propagated to the caller unchanged, with no retry, second call, local
classification or fallback. -/
theorem claim_C5_single_transport_call_and_verbatim_propagation :
    (∀ (ρ : Type) (f : Request → ρ) (page per_page : Option Int)
        (search sort order : Option String) (status : Option ServiceRequestStatus)
        (priority : Option ServiceRequestPriority) (client_id : Option String),
      ServiceRequestsResource.list (traced f) page per_page search sort order status
          priority client_id =
        (f (ServiceRequestsResource.listRequest page per_page search sort order status
            priority client_id),
         [ServiceRequestsResource.listRequest page per_page search sort order status
            priority client_id])) ∧
    (∀ (ε σ : Type) (t : Request → Except ε σ) (page per_page : Option Int)
        (search sort order : Option String) (status : Option ServiceRequestStatus)
        (priority : Option ServiceRequestPriority) (client_id : Option String),
      ServiceRequestsResource.list t page per_page search sort order status priority
          client_id =
        t (ServiceRequestsResource.listRequest page per_page search sort order status
            priority client_id)) ∧
    (∀ (ρ : Type) (f : Request → ρ) (id : String),
      ServiceRequestsResource.get (traced f) id =
        (f (ServiceRequestsResource.getRequest id),
         [ServiceRequestsResource.getRequest id])) ∧
    (∀ (ε σ : Type) (t : Request → Except ε σ) (id : String),
      ServiceRequestsResource.get t id = t (ServiceRequestsResource.getRequest id)) ∧
    (∀ (ρ : Type) (f : Request → ρ) (title : String) (client_id description : Option String)
        (status : Option ServiceRequestStatus) (source : Option String)
        (priority : Option ServiceRequestPriority)
        (requested_date preferred_time address contact_name contact_email contact_phone
          notes : Option String),
      ServiceRequestsResource.create (traced f) title client_id description status source
          priority requested_date preferred_time address contact_name contact_email
          contact_phone notes =
        (f (ServiceRequestsResource.createRequest title client_id description status source
            priority requested_date preferred_time address contact_name contact_email
            contact_phone notes),
         [ServiceRequestsResource.createRequest title client_id description status source
            priority requested_date preferred_time address contact_name contact_email
            contact_phone notes])) ∧
    (∀ (ε σ : Type) (t : Request → Except ε σ) (title : String)
        (client_id description : Option String) (status : Option ServiceRequestStatus)
        (source : Option String) (priority : Option ServiceRequestPriority)
        (requested_date preferred_time address contact_name contact_email contact_phone
          notes : Option String),
      ServiceRequestsResource.create t title client_id description status source priority
          requested_date preferred_time address contact_name contact_email contact_phone
          notes =
        t (ServiceRequestsResource.createRequest title client_id description status source
            priority requested_date preferred_time address contact_name contact_email
            contact_phone notes)) ∧
    (∀ (ρ : Type) (f : Request → ρ) (id : String) (kwargs : PyDict),
      ServiceRequestsResource.update (traced f) id kwargs =
        (f (ServiceRequestsResource.updateRequest id kwargs),
         [ServiceRequestsResource.updateRequest id kwargs])) ∧
    (∀ (ε σ : Type) (t : Request → Except ε σ) (id : String) (kwargs : PyDict),
      ServiceRequestsResource.update t id kwargs =
        t (ServiceRequestsResource.updateRequest id kwargs)) ∧
    (∀ (ρ : Type) (f : Request → ρ) (id : String),
      ServiceRequestsResource.delete (traced f) id =
        (f (ServiceRequestsResource.deleteRequest id),
         [ServiceRequestsResource.deleteRequest id])) ∧
    (∀ (ε σ : Type) (t : Request → Except ε σ) (id : String),
      ServiceRequestsResource.delete t id = t (ServiceRequestsResource.deleteRequest id)) ∧
    (∀ (ρ : Type) (f : Request → ρ) (page per_page : Option Int),
      WebhooksResource.list (traced f) page per_page =
        (f (WebhooksResource.listRequest page per_page),
         [WebhooksResource.listRequest page per_page])) ∧
    (∀ (ε σ : Type) (t : Request → Except ε σ) (page per_page : Option Int),
      WebhooksResource.list t page per_page = t (WebhooksResource.listRequest page per_page)) ∧
    (∀ (ρ : Type) (f : Request → ρ) (id : String),
      WebhooksResource.get (traced f) id =
        (f (WebhooksResource.getRequest id), [WebhooksResource.getRequest id])) ∧
    (∀ (ε σ : Type) (t : Request → Except ε σ) (id : String),
      WebhooksResource.get t id = t (WebhooksResource.getRequest id)) ∧
    (∀ (ρ : Type) (f : Request → ρ) (name url : String) (events : List WebhookEvent),
      WebhooksResource.create (traced f) name url events =
        (f (WebhooksResource.createRequest name url events),
         [WebhooksResource.createRequest name url events])) ∧
    (∀ (ε σ : Type) (t : Request → Except ε σ) (name url : String)
        (events : List WebhookEvent),
      WebhooksResource.create t name url events =
        t (WebhooksResource.createRequest name url events)) ∧
    (∀ (ρ : Type) (f : Request → ρ) (id : String) (name url : Option String)
        (events : Option (List WebhookEvent)) (is_active : Option Bool),
      WebhooksResource.update (traced f) id name url events is_active =
        (f (WebhooksResource.updateRequest id name url events is_active),
         [WebhooksResource.updateRequest id name url events is_active])) ∧
    (∀ (ε σ : Type) (t : Request → Except ε σ) (id : String) (name url : Option String)
        (events : Option (List WebhookEvent)) (is_active : Option Bool),
      WebhooksResource.update t id name url events is_active =
        t (WebhooksResource.updateRequest id name url events is_active)) ∧
    (∀ (ρ : Type) (f : Request → ρ) (id : String),
      WebhooksResource.delete (traced f) id =
        (f (WebhooksResource.deleteRequest id), [WebhooksResource.deleteRequest id])) ∧
    (∀ (ε σ : Type) (t : Request → Except ε σ) (id : String),
      WebhooksResource.delete t id = t (WebhooksResource.deleteRequest id)) ∧
    (∀ (ρ : Type) (f : Request → ρ) (webhook_id : String) (page per_page : Option Int)
        (event_type : Option WebhookEvent),
      WebhooksResource.list_deliveries (traced f) webhook_id page per_page event_type =
        (f (WebhooksResource.listDeliveriesRequest webhook_id page per_page event_type),
         [WebhooksResource.listDeliveriesRequest webhook_id page per_page event_type])) ∧
    (∀ (ε σ : Type) (t : Request → Except ε σ) (webhook_id : String)
        (page per_page : Option Int) (event_type : Option WebhookEvent),
      WebhooksResource.list_deliveries t webhook_id page per_page event_type =
        t (WebhooksResource.listDeliveriesRequest webhook_id page per_page event_type)) ∧
    (∀ (ρ : Type) (f : Request → ρ) (id : String),
      WebhooksResource.test (traced f) id =
        (f (WebhooksResource.testRequest id), [WebhooksResource.testRequest id])) ∧
    (∀ (ε σ : Type) (t : Request → Except ε σ) (id : String),
      WebhooksResource.test t id = t (WebhooksResource.testRequest id)) := by
  refine ⟨?_, ?_, ?_, ?_, ?_, ?_, ?_, ?_, ?_, ?_, ?_, ?_, ?_, ?_, ?_, ?_, ?_, ?_, ?_, ?_,
    ?_, ?_, ?_, ?_⟩
  all_goals intros
  all_goals rfl

/-- Claim C6: for every get and list call, the envelope returned to the caller
is exactly the value decoded by the shared transport — whatever typed envelope
the transport produces reaches the caller unchanged (identical field values,
no keys added or dropped), for any transport outcome. -/
theorem claim_C6_get_list_envelope_roundtrip :
    (∀ (env : ApiResponse ServiceRequest) (id : String),
      ServiceRequestsResource.get (fun _ => env) id = env) ∧
    (∀ (env : ListResponse ServiceRequest) (page per_page : Option Int)
        (search sort order : Option String) (status : Option ServiceRequestStatus)
        (priority : Option ServiceRequestPriority) (client_id : Option String),
      ServiceRequestsResource.list (fun _ => env) page per_page search sort order status
          priority client_id = env) ∧
    (∀ (env : ApiResponse Webhook) (id : String),
      WebhooksResource.get (fun _ => env) id = env) ∧
    (∀ (env : ListResponse Webhook) (page per_page : Option Int),
      WebhooksResource.list (fun _ => env) page per_page = env) ∧
    (∀ (env : ListResponse WebhookDelivery) (webhook_id : String)
        (page per_page : Option Int) (event_type : Option WebhookEvent),
      WebhooksResource.list_deliveries (fun _ => env) webhook_id page per_page
          event_type = env) ∧
    (∀ (ρ : Type) (t : Request → ρ) (id : String),
      ServiceRequestsResource.get t id = t (ServiceRequestsResource.getRequest id)) ∧
    (∀ (ρ : Type) (t : Request → ρ) (id : String),
      WebhooksResource.get t id = t (WebhooksResource.getRequest id)) := by
  refine ⟨?_, ?_, ?_, ?_, ?_, ?_, ?_⟩
  all_goals intros
  all_goals rfl

/-- Claim C7: every resource method targets its fixed URL template and HTTP
verb — list/get use GET on the collection and item paths, create uses POST on
the collection path, update uses PUT and delete uses DELETE on the item path,
list_deliveries uses GET on /v1/webhooks/{id}/deliveries and test uses POST on
/v1/webhooks/{id}/test, for every id argument. -/
theorem claim_C7_url_templates_and_verbs :
    (∀ (page per_page : Option Int) (search sort order : Option String)
        (status : Option ServiceRequestStatus) (priority : Option ServiceRequestPriority)
        (client_id : Option String),
      (ServiceRequestsResource.listRequest page per_page search sort order status priority
          client_id).method = Method.GET ∧
      (ServiceRequestsResource.listRequest page per_page search sort order status priority
          client_id).path = "/v1/service-requests") ∧
    (∀ (id : String),
      (ServiceRequestsResource.getRequest id).method = Method.GET ∧
      (ServiceRequestsResource.getRequest id).path = "/v1/service-requests/" ++ id) ∧
    (∀ (title : String) (client_id description : Option String)
        (status : Option ServiceRequestStatus) (source : Option String)
        (priority : Option ServiceRequestPriority)
        (requested_date preferred_time address contact_name contact_email contact_phone
          notes : Option String),
      (ServiceRequestsResource.createRequest title client_id description status source
          priority requested_date preferred_time address contact_name contact_email
          contact_phone notes).method = Method.POST ∧
      (ServiceRequestsResource.createRequest title client_id description status source
          priority requested_date preferred_time address contact_name contact_email
          contact_phone notes).path = "/v1/service-requests") ∧
    (∀ (id : String) (kwargs : PyDict),
      (ServiceRequestsResource.updateRequest id kwargs).method = Method.PUT ∧
      (ServiceRequestsResource.updateRequest id kwargs).path =
        "/v1/service-requests/" ++ id) ∧
    (∀ (id : String),
      (ServiceRequestsResource.deleteRequest id).method = Method.DELETE ∧
      (ServiceRequestsResource.deleteRequest id).path = "/v1/service-requests/" ++ id) ∧
    (∀ (page per_page : Option Int),
      (WebhooksResource.listRequest page per_page).method = Method.GET ∧
      (WebhooksResource.listRequest page per_page).path = "/v1/webhooks") ∧
    (∀ (id : String),
      (WebhooksResource.getRequest id).method = Method.GET ∧
      (WebhooksResource.getRequest id).path = "/v1/webhooks/" ++ id) ∧
    (∀ (name url : String) (events : List WebhookEvent),
      (WebhooksResource.createRequest name url events).method = Method.POST ∧
      (WebhooksResource.createRequest name url events).path = "/v1/webhooks") ∧
    (∀ (id : String) (name url : Option String) (events : Option (List WebhookEvent))
        (is_active : Option Bool),
      (WebhooksResource.updateRequest id name url events is_active).method = Method.PUT ∧
      (WebhooksResource.updateRequest id name url events is_active).path =
        "/v1/webhooks/" ++ id) ∧
    (∀ (id : String),
      (WebhooksResource.deleteRequest id).method = Method.DELETE ∧
      (WebhooksResource.deleteRequest id).path = "/v1/webhooks/" ++ id) ∧
    (∀ (webhook_id : String) (page per_page : Option Int)
        (event_type : Option WebhookEvent),
      (WebhooksResource.listDeliveriesRequest webhook_id page per_page
          event_type).method = Method.GET ∧
      (WebhooksResource.listDeliveriesRequest webhook_id page per_page
          event_type).path = "/v1/webhooks/" ++ webhook_id ++ "/deliveries") ∧
    (∀ (id : String),
      (WebhooksResource.testRequest id).method = Method.POST ∧
      (WebhooksResource.testRequest id).path = "/v1/webhooks/" ++ id ++ "/test") := by
  refine ⟨?_, ?_, ?_, ?_, ?_, ?_, ?_, ?_, ?_, ?_, ?_, ?_⟩
  all_goals intros
  all_goals exact ⟨rfl, rfl⟩

/-- Claim C8 counterexample: the `secret` field is part of the declared
response shape of `WebhooksResource.get` as well — get returns
`ApiResponse[Webhook]` and `secret` is a required key of the `Webhook` schema —
contradicting the claim that the secret field is present only in the create
response shape. -/
theorem claim_C8_counterexample_secret_in_get_shape :
    "secret" ∈ WebhooksResource.getResponseDataKeys := by decide

/-- Claim C8 (amended): the create response's declared shape carries a required
string field `secret`, and the create call returns the transport's decoded
envelope unchanged, so `data.secret` is exactly the server-supplied string (no
local non-emptiness guarantee exists); but the same `secret` field belongs to
the declared response shapes of get, list and update as well, because all
webhook operations share the one `Webhook` schema. -/
theorem claim_C8_amended_secret_in_every_webhook_shape :
    ("secret" ∈ WebhooksResource.createResponseDataKeys) ∧
    ("secret" ∈ WebhooksResource.getResponseDataKeys) ∧
    ("secret" ∈ WebhooksResource.updateResponseDataKeys) ∧
    ("secret" ∈ WebhooksResource.listResponseItemKeys) ∧
    ("secret" ∉ WebhooksResource.listDeliveriesResponseItemKeys) ∧
    (∀ (env : ApiResponse Webhook) (name url : String) (events : List WebhookEvent),
      (WebhooksResource.create (fun _ => env) name url events).data.secret =
        env.data.secret) := by
  refine ⟨by decide, by decide, by decide, by decide, by decide, ?_⟩
  intros
  rfl

/-- Claim C9 counterexample: a keyword named `id` is never transmitted in the
body.  In the call `update(id="sr_1", status="scheduled")` the keyword `id`
binds the path parameter, so the issued request's body is exactly
`{"status": "scheduled"}` with no `id` key — contradicting the claim that the
keyword key `id` with a non-None value is transmitted verbatim in the body. -/
theorem claim_C9_counterexample_id_keyword_not_in_body :
    ServiceRequestsResource.updateKeywordCall
        [("id", PyVal.vstr "sr_1"), ("status", PyVal.vstr "scheduled")] =
      Option.some (ServiceRequestsResource.updateRequest "sr_1"
        [("status", PyVal.vstr "scheduled")]) ∧
    "id" ∉ (ServiceRequestsResource.updateRequest "sr_1"
        [("status", PyVal.vstr "scheduled")]).bodyKeys := by decide

/-- Claim C9 (amended): the service-request update operation performs no
validation of the field names that reach `**kwargs` — every keyword key other
than `id` carrying a non-None value, wherever it occurs among the kwargs and
including keys outside the entity's mutable field set (such as business_id or
created_at), is transmitted verbatim in the request body.  A keyword named
`id` is excluded by Python's parameter binding, not by validation: it binds
the path parameter and never appears in the body, and a keyword call with no
`id` at all raises TypeError before any request is made. -/
theorem claim_C9_amended_non_id_keys_transmitted_verbatim (idv k : String) (v : PyVal)
    (l₁ l₂ : PyDict) (hrest : "id" ∉ (l₁ ++ (k, v) :: l₂).map Prod.fst)
    (hv : v ≠ PyVal.vnone) :
    (ServiceRequestsResource.updateKeywordCall
        (("id", PyVal.vstr idv) :: (l₁ ++ (k, v) :: l₂)) =
      Option.some (ServiceRequestsResource.updateRequest idv (l₁ ++ (k, v) :: l₂))) ∧
    (k, v) ∈
      ((ServiceRequestsResource.updateRequest idv (l₁ ++ (k, v) :: l₂)).body.getD []) ∧
    "id" ∉ (ServiceRequestsResource.updateRequest idv (l₁ ++ (k, v) :: l₂)).bodyKeys ∧
    ServiceRequestsResource.updateKeywordCall [("status", PyVal.vstr "x")] =
      Option.none := by
  refine ⟨?_, ?_, ?_, ?_⟩
  · have hfilter : (l₁ ++ (k, v) :: l₂).filter (fun kv => kv.1 != "id") =
        l₁ ++ (k, v) :: l₂ := by
      rw [List.filter_eq_self]
      intro kv hkv
      have h1 : kv.1 ∈ (l₁ ++ (k, v) :: l₂).map Prod.fst :=
        List.mem_map_of_mem Prod.fst hkv
      refine bne_iff_ne.mpr ?_
      intro hEq
      exact hrest (hEq ▸ h1)
    simp [ServiceRequestsResource.updateKeywordCall, List.lookup, hfilter]
  · simp only [ServiceRequestsResource.updateRequest, Option.getD_some]
    refine List.mem_filter.mpr ⟨?_, ?_⟩
    · exact List.mem_append_right _ (List.mem_cons_self _ _)
    · simpa using hv
  · simp only [Request.bodyKeys, ServiceRequestsResource.updateRequest, Option.getD_some]
    refine not_mem_map_fst_filter ?_
    intro v' hv'
    exact absurd (List.mem_map_of_mem Prod.fst hv') hrest
  · rfl

theorem claim_C9_amended_witness :
    ("id" ∉ ([("status", PyVal.vnone), ("created_at", PyVal.vstr "2024-01-01")] :
        PyDict).map Prod.fst) ∧
    (PyVal.vstr "2024-01-01" ≠ PyVal.vnone) ∧
    ((ServiceRequestsResource.updateKeywordCall
        [("id", PyVal.vstr "sr_1"), ("status", PyVal.vnone),
         ("created_at", PyVal.vstr "2024-01-01")] =
      Option.some (ServiceRequestsResource.updateRequest "sr_1"
        [("status", PyVal.vnone), ("created_at", PyVal.vstr "2024-01-01")])) ∧
    ("created_at", PyVal.vstr "2024-01-01") ∈
      ((ServiceRequestsResource.updateRequest "sr_1"
          [("status", PyVal.vnone),
           ("created_at", PyVal.vstr "2024-01-01")]).body.getD []) ∧
    "id" ∉ (ServiceRequestsResource.updateRequest "sr_1"
        [("status", PyVal.vnone), ("created_at", PyVal.vstr "2024-01-01")]).bodyKeys ∧
    ServiceRequestsResource.updateKeywordCall [("status", PyVal.vstr "x")] =
      Option.none) :=
  ⟨by decide, by decide,
   claim_C9_amended_non_id_keys_transmitted_verbatim "sr_1" "created_at"
     (PyVal.vstr "2024-01-01") [("status", PyVal.vnone)] [] (by decide) (by decide)⟩

theorem filter_nnone_of_all_none (ks : List String) :
    (ks.map (fun k => (k, PyVal.vnone))).filter (fun kv => kv.2 != PyVal.vnone) = [] := by
  induction ks with
  | nil => rfl
  | cons k ks ih => simp [List.filter_cons, ih]

/-- Claim C10: calling update with no fields set (no keyword arguments, or
every field passed as None) is not a local no-op — the resource method still
hands the transport exactly one PUT request whose JSON body is the empty
object. -/
theorem claim_C10_empty_update_still_issues_put :
    (∀ (id : String),
      ServiceRequestsResource.updateRequest id [] =
        { method := Method.PUT, path := "/v1/service-requests/" ++ id,
          body := Option.some [] }) ∧
    (∀ (id : String) (ks : List String),
      (ServiceRequestsResource.updateRequest id
          (ks.map (fun k => (k, PyVal.vnone)))).body = Option.some []) ∧
    (∀ (id : String),
      WebhooksResource.updateRequest id Option.none Option.none Option.none Option.none =
        { method := Method.PUT, path := "/v1/webhooks/" ++ id,
          body := Option.some [] }) ∧
    (∀ (ρ : Type) (f : Request → ρ) (id : String),
      ServiceRequestsResource.update (traced f) id [] =
        (f (ServiceRequestsResource.updateRequest id []),
         [ServiceRequestsResource.updateRequest id []])) ∧
    (∀ (ρ : Type) (f : Request → ρ) (id : String),
      WebhooksResource.update (traced f) id Option.none Option.none Option.none
          Option.none =
        (f (WebhooksResource.updateRequest id Option.none Option.none Option.none
              Option.none),
         [WebhooksResource.updateRequest id Option.none Option.none Option.none
            Option.none])) := by
  refine ⟨?_, ?_, ?_, ?_, ?_⟩
  · intro id
    rfl
  · intro id ks
    simp only [ServiceRequestsResource.updateRequest, filter_nnone_of_all_none]
  · intro id
    rfl
  · intro ρ f id
    rfl
  · intro ρ f id
    rfl
